import Mathlib

/-!
Verification development for the production-line barcode verifier repository.

The repository is a set of Python scripts (production_line_verifier.py and its
BARCODE / ENHANCED / HARDWARE / HARDWARE_ENHANCED variants, plus demo and
hardware-test scripts).  This file gives a shallow embedding of the parts of
the code the specification talks about:

* the barcode detection pipelines (`detect_barcode`, `preprocess_for_barcode`),
  embedded over an abstract image type: OpenCV transforms and the pyzbar
  decoder are opaque operations bundled in a `Vision` structure, so the
  embedding captures exactly which transforms are applied, in which order, and
  what is done with the decode results;
* the verifier state machines (reference barcode, production mode, statistics
  counters, log) and the operations of the main loops of every variant;
* the camera-read retry loop and the sound fallback paths (error handling);
* the buzzer threads spawned by `play_buzzer_tone` and the production
  simulation thread of production_demo.py (concurrency, as spawn effects).

A pyzbar result carries `data : bytes`; the Python code calls
`data.decode("utf-8")`, which raises `UnicodeDecodeError` on bytes that are
not valid UTF-8.  We model a decoded barcode as the *outcome* of that call:
`data = some s` when the bytes decode to the string `s`, `data = none` when
the call raises.  Timestamps in log entries are ignored (they are wall-clock
strings); `time.time()` is modelled as an exact rational supplied by the
caller.
-/

namespace BarcodeVerifier

/-- A pyzbar barcode result: `data` is the outcome of `barcode.data.decode("utf-8")`
(`none` models a `UnicodeDecodeError`), `typ` is `barcode.type`. -/
structure BC where
  data : Option String
  typ : String
deriving DecidableEq, Repr

/-- Python truthiness of an optional string (`if not self.reference_barcode`):
`None` and the empty string are falsy. -/
def pyTruthy : Option String → Bool
  | none => false
  | some s => s ≠ ""

/-- The image-processing transforms the pipelines apply, with their numeric
parameters as they appear in the source (CLAHE clip limits ×10, resize scales
in percent, Gaussian-blur kernel side, adaptive-threshold block size and C). -/
inductive Transform where
  | cvtGray
  | equalizeHist
  | gaussianBlur (k : Nat)
  | adaptiveThresh (blockSize c : Nat)
  | otsu
  | otsuInv
  | clahe (clipLimitTenths : Nat)
  | sharpen (kernelIdx : Nat)
  | binaryThresh (t : Nat)
  | binaryThreshInv (t : Nat)
  | morphClose (w h : Nat)
  | morphOpen (w h : Nat)
  | sobelMag
  | bilateral
  | resizeCubic (scalePct : Nat)
  | normalizeMinMax
deriving DecidableEq, Repr

/-- The opaque vision library: OpenCV transforms and the pyzbar decoder, over
an abstract image type.  The code under verification only composes these. -/
structure Vision (Img : Type) where
  apply : Transform → Img → Img
  decode : Img → List BC

/-- The guard of `add_unique_barcode` on a successfully decoded string:
`if data and data not in seen_data and len(data) > 0`. -/
def uniqueOk (seen : List String) (d : String) : Bool :=
  d ≠ "" && !(seen.contains d) && 0 < d.length

/-- `add_unique_barcode` from `detect_barcode` (BARCODE lines 224-233,
HARDWARE_ENHANCED lines 327-336): decode the data; on `UnicodeDecodeError`
the inner `except: pass` fires and nothing happens; otherwise add the barcode
when its data is non-empty and unseen.  Returns the updated `seen_data`,
`all_barcodes`, and whether the barcode was added. -/
def addUnique (seen : List String) (all : List BC) (bc : BC) :
    List String × List BC × Bool :=
  match bc.data with
  | none => (seen, all, false)
  | some d =>
    if uniqueOk seen d then (d :: seen, all ++ [bc], true)
    else (seen, all, false)

/-- One decode attempt of `detect_barcode`: iterate over the pyzbar results of
one image; the first successful `add_unique_barcode` returns `all_barcodes`
immediately (the `return all_barcodes` inside the `for` loop). -/
def scanStage (seen : List String) (all : List BC) :
    List BC → List String × List BC × Option (List BC)
  | [] => (seen, all, none)
  | bc :: bcs =>
    match addUnique seen all bc with
    | (seen', all', true) => (seen', all', some all')
    | (seen', all', false) => scanStage seen' all' bcs

/-- Run decode attempts over a list of candidate images in order, stopping at
the first attempt whose scan returns.  The final `Nat` counts how many images
were actually handed to `pyzbar.decode`. -/
def runStagesN {Img : Type} (env : Vision Img) (seen : List String) (all : List BC) :
    List Img → (List String × List BC × Option (List BC)) × Nat
  | [] => ((seen, all, none), 0)
  | img :: rest =>
    match scanStage seen all (env.decode img) with
    | (seen', all', some res) => ((seen', all', some res), 1)
    | (seen', all', none) =>
      let t := runStagesN env seen' all' rest
      (t.1, t.2 + 1)

/-- Candidate images of stages 1-2 of `detect_barcode` in
production_line_verifier_BARCODE.py (lines 235-294): original colour frame,
grayscale, histogram equalization, then Otsu, adaptive threshold, CLAHE
(clip 3.0) and the standard sharpening kernel, all on the grayscale image. -/
def stage12B {Img : Type} (env : Vision Img) (frame gray : Img) : List Img :=
  [frame, gray, env.apply .equalizeHist gray,
   env.apply .otsu gray,
   env.apply (.adaptiveThresh 11 2) gray,
   env.apply (.clahe 30) gray,
   env.apply (.sharpen 0) gray]

/-- Stage 3 of `detect_barcode` (BARCODE lines 296-309): rescaled grayscale at
scales 1.5, 2.0 and 0.75 with cubic interpolation. -/
def stage3B {Img : Type} (env : Vision Img) (gray : Img) : List Img :=
  [env.apply (.resizeCubic 150) gray,
   env.apply (.resizeCubic 200) gray,
   env.apply (.resizeCubic 75) gray]

/-- Stage 4 of `detect_barcode` (BARCODE lines 311-337): plain binary
thresholds 127, 150, 100, inverted Otsu, and a 3x3 morphological closing. -/
def stage4B {Img : Type} (env : Vision Img) (gray : Img) : List Img :=
  [env.apply (.binaryThresh 127) gray,
   env.apply (.binaryThresh 150) gray,
   env.apply (.binaryThresh 100) gray,
   env.apply .otsuInv gray,
   env.apply (.morphClose 3 3) gray]

/-- All candidate images of the BARCODE `detect_barcode`, in attempt order. -/
def stagesAllB {Img : Type} (env : Vision Img) (frame : Img) : List Img :=
  let gray := env.apply .cvtGray frame
  stage12B env frame gray ++ stage3B env gray ++ stage4B env gray

/-- `detect_barcode` of production_line_verifier_BARCODE.py (lines 214-339),
with its decode-attempt count.  The stage groups carry the guards of the
source: stages 3 and 4 run only `if not all_barcodes`.  The per-stage
`try/except` blocks guard library exceptions, which the pure embedding does
not produce. -/
def detectRunB {Img : Type} (env : Vision Img) (frame : Img) :
    (List String × List BC × Option (List BC)) × Nat :=
  let gray := env.apply .cvtGray frame
  match runStagesN env [] [] (stage12B env frame gray) with
  | ((seen1, all1, some res), n1) => ((seen1, all1, some res), n1)
  | ((seen1, all1, none), n1) =>
    let r3 := if all1.isEmpty then runStagesN env seen1 all1 (stage3B env gray)
              else ((seen1, all1, none), 0)
    match r3 with
    | ((seen2, all2, some res), n2) => ((seen2, all2, some res), n1 + n2)
    | ((seen2, all2, none), n2) =>
      let r4 := if all2.isEmpty then runStagesN env seen2 all2 (stage4B env gray)
                else ((seen2, all2, none), 0)
      ((r4.1), n1 + n2 + r4.2)

/-- Return value of the BARCODE `detect_barcode`: the early `return
all_barcodes` when some attempt added a barcode, the final `return
all_barcodes` otherwise. -/
def detect_barcodeB {Img : Type} (env : Vision Img) (frame : Img) : List BC :=
  match (detectRunB env frame).1 with
  | (_, _, some res) => res
  | (_, all, none) => all

/-- Number of `pyzbar.decode` calls the BARCODE `detect_barcode` makes. -/
def detectAttemptsB {Img : Type} (env : Vision Img) (frame : Img) : Nat :=
  (detectRunB env frame).2

/-- All candidate images of `detect_barcode` in
production_line_verifier_HARDWARE_ENHANCED.py (lines 322-391): original
frame, grayscale, histogram equalization, Otsu, adaptive threshold, CLAHE. -/
def stagesAllH {Img : Type} (env : Vision Img) (frame : Img) : List Img :=
  let gray := env.apply .cvtGray frame
  [frame, gray, env.apply .equalizeHist gray,
   env.apply .otsu gray,
   env.apply (.adaptiveThresh 11 2) gray,
   env.apply (.clahe 30) gray]

/-- `detect_barcode` of production_line_verifier_HARDWARE_ENHANCED.py
(lines 322-391) together with its decode-attempt count; the two stage groups
of the source have no emptiness guards, so the attempt list is a single
sequence. -/
def detectRunH {Img : Type} (env : Vision Img) (frame : Img) :
    (List String × List BC × Option (List BC)) × Nat :=
  runStagesN env [] [] (stagesAllH env frame)

/-- Return value of the HARDWARE_ENHANCED `detect_barcode`. -/
def detect_barcodeH {Img : Type} (env : Vision Img) (frame : Img) : List BC :=
  match (detectRunH env frame).1 with
  | (_, _, some res) => res
  | (_, all, none) => all

/-- Number of `pyzbar.decode` calls the HARDWARE_ENHANCED `detect_barcode`
makes. -/
def detectAttemptsH {Img : Type} (env : Vision Img) (frame : Img) : Nat :=
  (detectRunH env frame).2

/-- A barcode counts as a success for `add_unique_barcode` (against the empty
dedup set, which is what the set is until the first success): its data
decodes to a non-empty UTF-8 string. -/
def isGoodBC (bc : BC) : Bool :=
  match bc.data with
  | none => false
  | some d => uniqueOk [] d

/-- Specification-side reading of the pipeline ("a prioritized list of filters
applied until one succeeds"): the singleton of the first barcode, in stage
order then pyzbar result order, whose data decodes to a non-empty string. -/
def detectSpec {Img : Type} (env : Vision Img) (stages : List Img) : List BC :=
  match (stages.flatMap env.decode).find? (fun bc => isGoodBC bc) with
  | some bc => [bc]
  | none => []

/-- Specification-side decode-attempt count: one more than the number of
stages before the first stage containing a good barcode, or the number of
stages when none does.  So a decode success at stage `k` means stages after
`k` are never attempted. -/
def attemptsSpec {Img : Type} (env : Vision Img) : List Img → Nat
  | [] => 0
  | img :: rest =>
    if (env.decode img).any (fun bc => isGoodBC bc) then 1
    else attemptsSpec env rest + 1

/-! ### The preprocessing pipelines -/

/-- `preprocess_for_barcode` of production_line_verifier_BARCODE.py
(lines 107-212).  The returned list mirrors the `results` list of the source,
method by method: grayscale; 12 adaptive thresholds (block sizes 11, 15, 19,
25 times C 2, 5, 10); Otsu and inverted Otsu; CLAHE at clip limits 2.0, 3.0,
4.0 each followed by an Otsu threshold of the enhanced image; 3 sharpening
kernels; binary and inverted binary thresholds at 100, 127, 150, 180;
morphological closing and opening with kernels 2x2, 3x3, 5x1, 1x5; Sobel
gradient magnitude; Gaussian blur 3 and 5 followed by Otsu; bilateral filter
and its Otsu threshold; histogram equalization and its Otsu threshold;
min-max normalization. -/
def preprocess_for_barcodeB {Img : Type} (env : Vision Img) (frame : Img) : List Img :=
  let gray := env.apply .cvtGray frame
  [gray]
  ++ ([11, 15, 19, 25].flatMap fun b =>
       [2, 5, 10].map fun c => env.apply (.adaptiveThresh b c) gray)
  ++ [env.apply .otsu gray, env.apply .otsuInv gray]
  ++ ([20, 30, 40].flatMap fun cl =>
       [env.apply (.clahe cl) gray, env.apply .otsu (env.apply (.clahe cl) gray)])
  ++ ([0, 1, 2].map fun k => env.apply (.sharpen k) gray)
  ++ ([100, 127, 150, 180].flatMap fun t =>
       [env.apply (.binaryThresh t) gray, env.apply (.binaryThreshInv t) gray])
  ++ ([(2, 2), (3, 3), (5, 1), (1, 5)].flatMap fun p =>
       [env.apply (.morphClose p.1 p.2) gray, env.apply (.morphOpen p.1 p.2) gray])
  ++ [env.apply .sobelMag gray]
  ++ ([3, 5].map fun k => env.apply .otsu (env.apply (.gaussianBlur k) gray))
  ++ [env.apply .bilateral gray, env.apply .otsu (env.apply .bilateral gray)]
  ++ [env.apply .equalizeHist gray, env.apply .otsu (env.apply .equalizeHist gray)]
  ++ [env.apply .normalizeMinMax gray]

/-- `preprocess_for_barcode` of production_line_verifier_HARDWARE_ENHANCED.py
(lines 293-320): grayscale, Otsu, adaptive threshold, CLAHE, sharpening. -/
def preprocess_for_barcodeH {Img : Type} (env : Vision Img) (frame : Img) : List Img :=
  let gray := env.apply .cvtGray frame
  [gray,
   env.apply .otsu gray,
   env.apply (.adaptiveThresh 11 2) gray,
   env.apply (.clahe 30) gray,
   env.apply (.sharpen 0) gray]

/-! ### Verifier state and `verify_product`

The two production verifiers whose `verify_product` the claims cite
(production_line_verifier.py lines 139-186 and
production_line_verifier_BARCODE.py lines 370-417) have textually identical
`verify_product` bodies apart from the detector they call and print
formatting, so the embedding is parametrized by the detector. -/

/-- One CSV row written by `log_result` (timestamp omitted: it is wall-clock
presentation).  The `reference` column is `self.reference_barcode or ""`. -/
structure LogEntry where
  status : String
  barcode : String
  reference : String
  typ : String
deriving DecidableEq, Repr

/-- The verifier object state relevant to `verify_product`:
`reference_barcode`, the four statistics counters, the scan throttle clock
and the CSV log. -/
structure VState where
  reference_barcode : Option String
  production_mode : Bool
  total_scans : Nat
  passed : Nat
  mismatched : Nat
  no_barcode : Nat
  last_scan_time : ℚ
  log : List LogEntry
deriving DecidableEq, Repr

/-- `self.scan_interval = 1.5` seconds. -/
def scanInterval : ℚ := 3 / 2

/-- `log_result(status, barcode, type)`: append one CSV row; the reference
column is `self.reference_barcode or ""`. -/
def log_result (s : VState) (status barcode typ : String) : VState :=
  { s with log := s.log ++ [⟨status, barcode, s.reference_barcode.getD "", typ⟩] }

/-- `verify_product(frame)` (production_line_verifier.py lines 139-186;
identically in the BARCODE variant lines 370-417), parametrized by the
detector and by `time.time()`.  Control flow of the source: return `None`
when the reference is falsy or when throttled; otherwise stamp the clock,
detect, bump `total_scans`, and take the no-barcode / pass / mismatch branch.
`barcode.data.decode("utf-8")` on the first barcode can raise
`UnicodeDecodeError`; this propagates out of `verify_product`, leaving the
object in the state reached at the raise, which the embedding returns in the
`error` case. -/
def verify_product {Img : Type} (detect : Img → List BC) (now : ℚ) (frame : Img)
    (s : VState) : Except VState (Option String × VState) :=
  if pyTruthy s.reference_barcode = false then .ok (none, s)
  else if now - s.last_scan_time < scanInterval then .ok (none, s)
  else
    let s1 := { s with last_scan_time := now }
    let bcs := detect frame
    let s2 := { s1 with total_scans := s1.total_scans + 1 }
    match bcs with
    | [] =>
      let s3 := log_result { s2 with no_barcode := s2.no_barcode + 1 } "NO_BARCODE" "" ""
      .ok (some "NO_BARCODE", s3)
    | bc :: _ =>
      match bc.data with
      | none => .error s2
      | some d =>
        if s.reference_barcode = some d then
          let s3 := log_result { s2 with passed := s2.passed + 1 } "PASS" d bc.typ
          .ok (some "PASS", s3)
        else
          let s3 := log_result { s2 with mismatched := s2.mismatched + 1 } "MISMATCH" d bc.typ
          .ok (some "MISMATCH", s3)

/-- `detect_barcode` of the base production_line_verifier.py (lines 97-109):
grayscale, histogram equalization, Gaussian blur 3x3, then a single
`pyzbar.decode`; the raw result list is returned unfiltered. -/
def detect_base {Img : Type} (env : Vision Img) (frame : Img) : List BC :=
  env.decode (env.apply (.gaussianBlur 3)
    (env.apply .equalizeHist (env.apply .cvtGray frame)))

/-! ### Mode state machines of the five verifier variants

The mode-relevant fields are `reference_barcode`, `reference_type`,
`production_mode`, and (in the ENHANCED / HARDWARE / HARDWARE_ENHANCED
variants) the capture request flag consumed by the main loop.  The statistics
counters and log are not touched by any of these operations.  Reference
captures are parametrized by the detector result list for the current frame. -/

/-- Mode-relevant verifier fields shared by all variants.  `capture_requested`
exists as an instance field in ENHANCED / HARDWARE_ENHANCED and as the
`capture_requested` local of the HARDWARE main loop; the base and BARCODE
variants never touch it. -/
structure MState where
  reference_barcode : Option String
  reference_type : Option String
  production_mode : Bool
  capture_requested : Bool
deriving DecidableEq, Repr

/-- Initial mode state of every variant constructor: no reference, production
mode off, no pending capture request. -/
def initMState : MState :=
  ⟨none, none, false, false⟩

/-- The start/stop handler, shared verbatim by every variant (base and
BARCODE `elif key == ord("s")` branches, `handle_start_button` in ENHANCED
lines 159-175, HARDWARE lines 239-255, HARDWARE_ENHANCED lines 254-271):
refuse while the reference is falsy, otherwise toggle `production_mode`. -/
def handle_start (s : MState) : MState :=
  if pyTruthy s.reference_barcode = false then s
  else { s with production_mode := !s.production_mode }

/-- The reset branch (`elif key == ord("r")`) of the base, BARCODE and
HARDWARE_ENHANCED main loops: clear the reference and leave production mode. -/
def do_reset (s : MState) : MState :=
  { s with reference_barcode := none, reference_type := none,
           production_mode := false }

/-- `capture_reference(frame)` restricted to the mode fields, parametrized by
the detector result for the frame: on no barcode, state unchanged (print and
beep only); otherwise `reference_barcode = barcodes[0].data.decode("utf-8")`
and `reference_type = barcodes[0].type`.  When the decode raises, the
assignment is never reached and the state is unchanged. -/
def do_capture (bcs : List BC) (s : MState) : MState :=
  match bcs with
  | [] => s
  | bc :: _ =>
    match bc.data with
    | none => s
    | some d => { s with reference_barcode := some d, reference_type := some bc.typ }

/-- Operations of the base production_line_verifier.py main loop (lines
365-416) and the identical BARCODE main loop, keyed by the pressed key; a
frame tick in production mode runs `verify_product`, which touches none of
the mode fields. -/
inductive BaseOp where
  | keyC (bcs : List BC)
  | keyS
  | keyR
  | keyL
  | keyH
  | keyOther
  | frameTick
deriving DecidableEq, Repr

/-- Effect of one base / BARCODE main-loop operation on the mode state. -/
def base_step (op : BaseOp) (s : MState) : MState :=
  match op with
  | .keyC bcs => do_capture bcs s
  | .keyS => handle_start s
  | .keyR => do_reset s
  | .keyL => s
  | .keyH => s
  | .keyOther => s
  | .frameTick => s

/-- Operations of the ENHANCED main loop (production_line_verifier_ENHANCED.py
lines 406-467) and its gpiozero button callbacks: the capture button / key
set `capture_requested`; the loop consumes the request by running
`capture_reference` and always clearing the flag. -/
inductive EnhOp where
  | btnStart
  | btnCapture
  | keyQ
  | keyH
  | keyC
  | keyS
  | loopTick (bcs : List BC)
deriving DecidableEq, Repr

/-- Effect of one ENHANCED operation on the mode state. -/
def enh_step (op : EnhOp) (s : MState) : MState :=
  match op with
  | .btnStart => handle_start s
  | .btnCapture => { s with capture_requested := true }
  | .keyQ => s
  | .keyH => s
  | .keyC => { s with capture_requested := true }
  | .keyS => handle_start s
  | .loopTick bcs =>
    if s.capture_requested then { do_capture bcs s with capture_requested := false }
    else s

/-- Operations of the HARDWARE main loop
(production_line_verifier_HARDWARE.py lines 484-551): keyboard `c` sets the
`capture_requested` local, `s` and the start button call
`handle_start_button`; the hardware capture button handler only prints
(lines 257-261), changing nothing. -/
inductive HwOp where
  | btnStart
  | btnCapture
  | keyQ
  | keyH
  | keyC
  | keyS
  | loopTick (bcs : List BC)
deriving DecidableEq, Repr

/-- Effect of one HARDWARE operation on the mode state. -/
def hw_step (op : HwOp) (s : MState) : MState :=
  match op with
  | .btnStart => handle_start s
  | .btnCapture => s
  | .keyQ => s
  | .keyH => s
  | .keyC => { s with capture_requested := true }
  | .keyS => handle_start s
  | .loopTick bcs =>
    if s.capture_requested then { do_capture bcs s with capture_requested := false }
    else s

/-- Operations of the HARDWARE_ENHANCED main loop
(production_line_verifier_HARDWARE_ENHANCED.py lines 730-821) and its button
callbacks: keyboard `c` calls `capture_reference` directly (line 781), the
hardware capture button sets `capture_requested` (lines 248-252), consumed at
lines 737-742; keyboard `r` resets; `s` and the start button toggle. -/
inductive HweOp where
  | btnStart
  | btnCapture
  | keyQ
  | keyH
  | keyL
  | keyC (bcs : List BC)
  | keyS
  | keyR
  | loopTick (bcs : List BC)
deriving DecidableEq, Repr

/-- Effect of one HARDWARE_ENHANCED operation on the mode state. -/
def hwe_step (op : HweOp) (s : MState) : MState :=
  match op with
  | .btnStart => handle_start s
  | .btnCapture => { s with capture_requested := true }
  | .keyQ => s
  | .keyH => s
  | .keyL => s
  | .keyC bcs => do_capture bcs s
  | .keyS => handle_start s
  | .keyR => do_reset s
  | .loopTick bcs =>
    if s.capture_requested then { do_capture bcs s with capture_requested := false }
    else s

/-- The mode invariant of the claims: production mode on implies a reference
barcode is set. -/
def ModeInv (s : MState) : Prop :=
  s.production_mode = true → s.reference_barcode ≠ none

/-! ### Error handling: camera-read retry and sound fallback -/

/-- The camera-read portion of the ENHANCED main loop
(production_line_verifier_ENHANCED.py lines 407-419; identically in
HARDWARE lines 488-498): on `ret` false the loop prints, bumps
`frame_count`, gives up once `frame_count > 10`, otherwise sleeps 0.1 s and
re-attempts the read.  `outcomes` is the stream of camera read results
(`none` = failed read) and `frameCount` is the consecutive-failure counter on
entry.  Returns the frame obtained (if any) and how many `cap.read()` calls
were made. -/
def camera_read_retry {α : Type} : List (Option α) → Nat → Option α × Nat
  | [], _ => (none, 0)
  | o :: rest, frameCount =>
    match o with
    | some f => (some f, 1)
    | none =>
      if frameCount + 1 > 10 then (none, 1)
      else
        let t := camera_read_retry rest (frameCount + 1)
        (t.1, t.2 + 1)

/-- Observable effects of `play_sound` in production_line_verifier_BARCODE.py
(lines 79-105): `speaker-test` invocations at a frequency, sleeps, and the
console-bell print of the `except` handler. -/
inductive SndEff where
  | speakerBeep (freq : Nat)
  | sleepCs (n : Nat)
  | consoleBell
deriving DecidableEq, Repr

/-- `play_sound(sound_type)` of production_line_verifier_BARCODE.py
(lines 79-105).  `fails = true` models the first `subprocess.run` call
raising (e.g. `speaker-test` missing): the exception skips the rest of the
`try` body and the `except` handler prints the bell fallback
(`print(f"\\a")`, the comment calls it "Fallback to console beep").  Sleep
durations are in centiseconds.  An unknown sound type runs no command and so
cannot raise. -/
def play_soundB (sound_type : String) (fails : Bool) : List SndEff :=
  match sound_type with
  | "success" =>
    if fails then [.speakerBeep 1000, .consoleBell] else [.speakerBeep 1000]
  | "mismatch" =>
    if fails then [.speakerBeep 800, .consoleBell]
    else [.speakerBeep 800, .sleepCs 10, .speakerBeep 800]
  | "no_barcode" =>
    if fails then [.speakerBeep 400, .consoleBell] else [.speakerBeep 400]
  | "reference_captured" =>
    if fails then [.speakerBeep 600, .consoleBell]
    else [.speakerBeep 600, .sleepCs 5, .speakerBeep 800, .sleepCs 5,
          .speakerBeep 1000, .sleepCs 5]
  | _ => []

/-- Whether a sound effect is a `speaker-test` invocation. -/
def isSpeaker : SndEff → Bool
  | .speakerBeep _ => true
  | _ => false

/-! ### Concurrency: buzzer threads and the production-simulation thread -/

/-- Actions of a buzzer thread body: GPIO buzzer on/off and sleeps
(centiseconds). -/
inductive BuzzAct where
  | on
  | off
  | sleepCs (n : Nat)
deriving DecidableEq, Repr

/-- The beep script of `play_buzzer_tone` in
production_line_verifier_ENHANCED.py (lines 114-157), as a function of
`tone_type` only: an unknown tone type yields an empty script. -/
def buzzerActionsEnh (tone_type : String) : List BuzzAct :=
  match tone_type with
  | "reference_captured" =>
    (List.replicate 3 [BuzzAct.on, .sleepCs 20, .off, .sleepCs 10]).flatten
  | "pass" => [.on, .sleepCs 30, .off]
  | "mismatch" =>
    (List.replicate 2 [BuzzAct.on, .sleepCs 20, .off, .sleepCs 10]).flatten
  | "start" => [.on, .sleepCs 50, .off]
  | "stop" =>
    (List.replicate 2 [BuzzAct.on, .sleepCs 10, .off, .sleepCs 10]).flatten
  | "error" =>
    (List.replicate 5 [BuzzAct.on, .sleepCs 10, .off, .sleepCs 10]).flatten
  | _ => []

/-- A thread spawned somewhere in the repository: either a buzzer beep
thread with its action script, or the production-simulation thread of
production_demo.py. -/
inductive SpawnedThread where
  | beep (daemon : Bool) (script : List BuzzAct)
  | productionSim (daemon : Bool)
deriving DecidableEq, Repr

/-- `play_buzzer_tone(tone_type)` of production_line_verifier_ENHANCED.py
(lines 114-157) as an operation on the verifier state: it reads no verifier
field other than `hardware_available`, changes none, and (when hardware is
available) starts one daemon thread running `buzzer_thread` and returns at
once; the thread body is fully determined by `tone_type`. -/
def play_buzzer_toneEnh (hardware_available : Bool) (tone_type : String)
    (s : MState) : MState × List SpawnedThread :=
  (s, if hardware_available then [.beep true (buzzerActionsEnh tone_type)] else [])

/-- Running a beep script: buzzer actions drive the buzzer line (a `Bool`)
and spend time; they never touch the verifier state, which the runner
nevertheless threads through to make that a provable statement. -/
def runBuzzScript (script : List BuzzAct) (buzzer : Bool) (s : MState) :
    Bool × MState :=
  match script with
  | [] => (buzzer, s)
  | .on :: rest => runBuzzScript rest true s
  | .off :: rest => runBuzzScript rest false s
  | .sleepCs _ :: rest => runBuzzScript rest buzzer s

/-- State of the ProductionDemo object of production_demo.py (lines 17-28). -/
structure DemoState where
  production_mode : Bool
  reference_barcode : Option String
  scan_count : Nat
  pass_count : Nat
  fail_count : Nat
deriving DecidableEq, Repr

/-- One iteration of the `production_thread` body spawned by
`start_production_simulation` (production_demo.py lines 106-126): while
production mode is on, bump `scan_count` and then `pass_count` or
`fail_count` depending on `scan_count % 5`. -/
def productionSimStep (s : DemoState) : DemoState :=
  if s.production_mode then
    let s1 := { s with scan_count := s.scan_count + 1 }
    if s1.scan_count % 5 ≠ 0 then { s1 with pass_count := s1.pass_count + 1 }
    else { s1 with fail_count := s1.fail_count + 1 }
  else s

/-- `start_production_simulation` (production_demo.py lines 106-126): spawns
one daemon thread running the production simulation and returns. -/
def start_production_simulation : List SpawnedThread :=
  [.productionSim true]

/-! ### `detect_barcode` as a verifier method (purity) -/

/-- A sequence of `detect_barcode` calls on a verifier object, for an
arbitrary detector body `d` that, like all three `detect_barcode` sources
(base lines 97-109, BARCODE lines 214-339, HARDWARE_ENHANCED lines 322-391),
reads and writes no `self` field: each call computes from the frame alone and
the state is passed through. -/
def runDetectCalls {Img : Type} (d : Img → List BC) :
    List Img → VState → List (List BC) × VState
  | [], s => ([], s)
  | f :: fs, s =>
    let r := d f
    let t := runDetectCalls d fs s
    (r :: t.1, t.2)

/-! ### Keyboard dispatch of the base main loop -/

/-- Action the base main loop (production_line_verifier.py lines 365-416)
takes for a key press, following the `elif` chain of the source. -/
inductive KAct where
  | quit
  | capture
  | startStop
  | reset
  | viewLogs
  | help
  | ignore
deriving DecidableEq, Repr

/-- The `elif key == ord(...)` dispatch chain of the base main loop: `q`
quits, `c` captures, `s` toggles, `r` resets, `l` views logs, `h` prints
help, anything else falls through. -/
def keyAction (k : Char) : KAct :=
  if k = 'q' then .quit
  else if k = 'c' then .capture
  else if k = 's' then .startStop
  else if k = 'r' then .reset
  else if k = 'l' then .viewLogs
  else if k = 'h' then .help
  else .ignore

/-- The keyboard commands documented in the module docstring of
production_line_verifier.py (lines 6-11). -/
def documented_keys : List Char :=
  ['c', 's', 'q', 'r', 'l']

/-- Effect of one key press of the base main loop on the mode state,
parametrized by the detector result for the current frame. -/
def base_key_step (bcs : List BC) (k : Char) (s : MState) : MState :=
  match keyAction k with
  | .capture => do_capture bcs s
  | .startStop => handle_start s
  | .reset => do_reset s
  | _ => s

/-! ### Concrete instances used by witnesses and counterexamples -/

/-- A decoded barcode with data "A". -/
def bcA : BC := ⟨some "A", "EAN13"⟩

/-- A barcode whose data bytes are not valid UTF-8 (e.g. `b"\xff"`):
`data.decode("utf-8")` raises. -/
def bcBad : BC := ⟨none, "QRCODE"⟩

/-- A concrete vision library over `Img = Nat` in which no image decodes to
any barcode. -/
def envZero : Vision Nat := ⟨fun _ i => i, fun _ => []⟩

/-- A concrete vision library over `Img = Nat` in which every transform bumps
the image id and only the untouched original frame `0` decodes, to `bcA`. -/
def envHit : Vision Nat :=
  ⟨fun _ i => i + 1, fun i => if i = 0 then [bcA] else []⟩

/-- A concrete vision library in which only image `2` (the
histogram-equalized stage under `envMiss.apply`) decodes, to `bcA`. -/
def envMiss : Vision Nat :=
  ⟨fun _ i => i + 1, fun i => if i = 2 then [bcA] else []⟩

/-- A detector that always reports `bcA`. -/
def detOne : Nat → List BC := fun _ => [bcA]

/-- A detector that never reports a barcode. -/
def detNone : Nat → List BC := fun _ => []

/-- A detector that reports one barcode whose data is not valid UTF-8. -/
def detBad : Nat → List BC := fun _ => [bcBad]

/-- A verifier state with reference "A" set, production mode off, zeroed
counters, clock at 0 and an empty log. -/
def sA : VState := ⟨some "A", false, 0, 0, 0, 0, 0, []⟩

/-- `sA` after a pass scan at time 10. -/
def sAPass : VState :=
  ⟨some "A", false, 1, 1, 0, 0, 10, [⟨"PASS", "A", "A", "EAN13"⟩]⟩

/-- `sA` after the scan in which the first barcode's data fails to decode:
the clock is stamped and `total_scans` is bumped, then the
`UnicodeDecodeError` propagates before any outcome counter or log write. -/
def sAErr : VState := ⟨some "A", false, 1, 0, 0, 0, 10, []⟩

/-- A mode state with a reference set and production mode on. -/
def mEx : MState := ⟨some "A", some "EAN13", true, false⟩

/-- A mode state with nothing set and no pending capture request. -/
def mReqF : MState := ⟨none, none, false, false⟩

/-- The same mode state except that a capture request is pending. -/
def mReqT : MState := ⟨none, none, false, true⟩

/-- The ProductionDemo state right after the reference is captured and
production mode started. -/
def demoOn : DemoState := ⟨true, some "DEMO123456", 0, 0, 0⟩

/-- Whether a spawned thread is a buzzer beep thread. -/
def isBeep : SpawnedThread → Bool
  | .beep _ _ => true
  | .productionSim _ => false

/-! ### Characterization of the detection pipelines -/

theorem addUnique_none_data (seen : List String) (all : List BC) (bc : BC)
    (hd : bc.data = none) : addUnique seen all bc = (seen, all, false) := by
  simp [addUnique, hd]

theorem addUnique_empty_true (bc : BC) (h : isGoodBC bc = true) :
    ∃ d, bc.data = some d ∧ addUnique [] [] bc = ([d], [bc], true) := by
  cases hd : bc.data with
  | none => simp [isGoodBC, hd] at h
  | some d =>
    have hu : uniqueOk [] d = true := by simpa [isGoodBC, hd] using h
    exact ⟨d, rfl, by simp [addUnique, hd, hu]⟩

theorem addUnique_empty_false (bc : BC) (h : isGoodBC bc = false) :
    addUnique [] [] bc = ([], [], false) := by
  cases hd : bc.data with
  | none => simp [addUnique, hd]
  | some d =>
    have hu : uniqueOk [] d = false := by simpa [isGoodBC, hd] using h
    simp [addUnique, hd, hu]

theorem scanStage_empty_none (bcs : List BC)
    (h : ∀ x ∈ bcs, isGoodBC x = false) :
    scanStage [] [] bcs = ([], [], none) := by
  induction bcs with
  | nil => rfl
  | cons bc rest ih =>
    unfold scanStage
    rw [addUnique_empty_false bc (h bc (List.mem_cons_self bc rest))]
    exact ih (fun x hx => h x (List.mem_cons_of_mem bc hx))

theorem scanStage_empty_some (bcs : List BC) (bc : BC)
    (h : bcs.find? (fun x => isGoodBC x) = some bc) :
    ∃ sn, scanStage [] [] bcs = (sn, [bc], some [bc]) := by
  induction bcs with
  | nil => simp at h
  | cons b rest ih =>
    cases hg : isGoodBC b with
    | true =>
      rw [List.find?_cons_of_pos _ (by simpa using hg)] at h
      obtain rfl : b = bc := by simpa using h
      obtain ⟨d, _, hadd⟩ := addUnique_empty_true b hg
      exact ⟨[d], by unfold scanStage; rw [hadd]⟩
    | false =>
      rw [List.find?_cons_of_neg _ (by simp [hg])] at h
      obtain ⟨sn, hs⟩ := ih h
      exact ⟨sn, by unfold scanStage; rw [addUnique_empty_false b hg]; exact hs⟩

theorem runStagesN_empty_none {Img : Type} (env : Vision Img) (imgs : List Img)
    (h : ∀ img ∈ imgs, ∀ bc ∈ env.decode img, isGoodBC bc = false) :
    runStagesN env [] [] imgs = (([], [], none), imgs.length) := by
  induction imgs with
  | nil => rfl
  | cons img rest ih =>
    unfold runStagesN
    rw [scanStage_empty_none (env.decode img)
      (fun bc hbc => h img (List.mem_cons_self img rest) bc hbc)]
    have hr := ih (fun i hi bc hbc => h i (List.mem_cons_of_mem img hi) bc hbc)
    simp [hr, List.length_cons]

theorem runStagesN_empty_some {Img : Type} (env : Vision Img) (imgs : List Img)
    (bc : BC) (h : (imgs.flatMap env.decode).find? (fun x => isGoodBC x) = some bc) :
    ∃ sn, runStagesN env [] [] imgs = ((sn, [bc], some [bc]), attemptsSpec env imgs) := by
  induction imgs with
  | nil => simp at h
  | cons img rest ih =>
    rw [List.flatMap_cons, List.find?_append] at h
    cases hf : (env.decode img).find? (fun x => isGoodBC x) with
    | some b =>
      rw [hf] at h
      obtain rfl : b = bc := by simpa using h
      obtain ⟨sn, hs⟩ := scanStage_empty_some (env.decode img) b hf
      refine ⟨sn, ?_⟩
      unfold runStagesN
      rw [hs]
      have hany : (env.decode img).any (fun x => isGoodBC x) = true :=
        List.any_eq_true.mpr ⟨b, List.mem_of_find?_eq_some hf, List.find?_some hf⟩
      simp [attemptsSpec, hany]
    | none =>
      rw [hf] at h
      simp only [Option.or] at h
      have hnone : scanStage [] [] (env.decode img) = ([], [], none) :=
        scanStage_empty_none (env.decode img)
          (fun x hx => by
            have := List.find?_eq_none.mp hf x hx
            simpa using this)
      obtain ⟨sn, hs⟩ := ih h
      refine ⟨sn, ?_⟩
      unfold runStagesN
      rw [hnone]
      have hany : (env.decode img).any (fun x => isGoodBC x) = false := by
        rw [Bool.eq_false_iff]
        intro hc
        obtain ⟨x, hx, hgx⟩ := List.any_eq_true.mp hc
        exact absurd hgx (List.find?_eq_none.mp hf x hx)
      simp [hs, attemptsSpec, hany]

theorem flatMap_find?_none_iff {Img : Type} (env : Vision Img) (xs : List Img) :
    (xs.flatMap env.decode).find? (fun x => isGoodBC x) = none ↔
      ∀ img ∈ xs, ∀ bc ∈ env.decode img, isGoodBC bc = false := by
  rw [List.find?_eq_none]
  constructor
  · intro h img hi bc hbc
    have := h bc (List.mem_flatMap.mpr ⟨img, hi, hbc⟩)
    simpa using this
  · intro h x hx
    obtain ⟨img, hi, hbc⟩ := List.mem_flatMap.mp hx
    simp [h img hi x hbc]

theorem attemptsSpec_cons {Img : Type} (env : Vision Img) (img : Img) (rest : List Img) :
    attemptsSpec env (img :: rest) =
      if (env.decode img).any (fun x => isGoodBC x) then 1
      else attemptsSpec env rest + 1 := rfl

theorem attemptsSpec_append_none {Img : Type} (env : Vision Img) (xs ys : List Img)
    (h : ∀ img ∈ xs, ∀ bc ∈ env.decode img, isGoodBC bc = false) :
    attemptsSpec env (xs ++ ys) = xs.length + attemptsSpec env ys := by
  induction xs with
  | nil => simp
  | cons img rest ih =>
    have hany : (env.decode img).any (fun x => isGoodBC x) = false := by
      rw [Bool.eq_false_iff]
      intro hc
      obtain ⟨x, hx, hgx⟩ := List.any_eq_true.mp hc
      exact absurd hgx (by simp [h img (List.mem_cons_self img rest) x hx])
    rw [List.cons_append, attemptsSpec_cons, hany]
    simp only [Bool.false_eq_true, if_false]
    rw [ih (fun i hi bc hbc => h i (List.mem_cons_of_mem img hi) bc hbc)]
    simp [List.length_cons]
    omega

theorem attemptsSpec_append_found {Img : Type} (env : Vision Img) (xs ys : List Img)
    (bc : BC) (h : (xs.flatMap env.decode).find? (fun x => isGoodBC x) = some bc) :
    attemptsSpec env (xs ++ ys) = attemptsSpec env xs := by
  induction xs with
  | nil => simp at h
  | cons img rest ih =>
    rw [List.flatMap_cons, List.find?_append] at h
    rw [List.cons_append, attemptsSpec_cons, attemptsSpec_cons]
    cases hf : (env.decode img).find? (fun x => isGoodBC x) with
    | some b =>
      have hany : (env.decode img).any (fun x => isGoodBC x) = true :=
        List.any_eq_true.mpr ⟨b, List.mem_of_find?_eq_some hf, List.find?_some hf⟩
      rw [hany]
      simp
    | none =>
      rw [hf] at h
      simp only [Option.or] at h
      have hany : (env.decode img).any (fun x => isGoodBC x) = false := by
        rw [Bool.eq_false_iff]
        intro hc
        obtain ⟨x, hx, hgx⟩ := List.any_eq_true.mp hc
        exact absurd hgx (List.find?_eq_none.mp hf x hx)
      rw [hany]
      simp only [Bool.false_eq_true, if_false]
      rw [ih h]

theorem attemptsSpec_all_none {Img : Type} (env : Vision Img) (xs : List Img)
    (h : ∀ img ∈ xs, ∀ bc ∈ env.decode img, isGoodBC bc = false) :
    attemptsSpec env xs = xs.length := by
  have := attemptsSpec_append_none env xs [] h
  simpa using this

/-- The HARDWARE_ENHANCED `detect_barcode` is the prioritized-filter pipeline:
its result is the singleton of the first good barcode over the fixed stage
order, and its decode-attempt count stops right at the first good stage. -/
theorem detectH_characterization {Img : Type} (env : Vision Img) (frame : Img) :
    detect_barcodeH env frame = detectSpec env (stagesAllH env frame) ∧
    detectAttemptsH env frame = attemptsSpec env (stagesAllH env frame) := by
  unfold detect_barcodeH detectAttemptsH detectRunH detectSpec
  cases hf : ((stagesAllH env frame).flatMap env.decode).find? (fun x => isGoodBC x) with
  | some bc =>
    obtain ⟨sn, hr⟩ := runStagesN_empty_some env _ bc hf
    rw [hr]
    exact ⟨rfl, rfl⟩
  | none =>
    have hr := runStagesN_empty_none env _ ((flatMap_find?_none_iff env _).mp hf)
    rw [hr]
    exact ⟨rfl, (attemptsSpec_all_none env _ ((flatMap_find?_none_iff env _).mp hf)).symm⟩

/-- The BARCODE `detect_barcode` is the prioritized-filter pipeline: its
result is the singleton of the first good barcode over the fixed stage order
(original, grayscale, equalized, Otsu, adaptive, CLAHE, sharpened, three
rescales, three binary thresholds, inverted Otsu, morphology), and its
decode-attempt count stops right at the first good stage. -/
theorem detectB_characterization {Img : Type} (env : Vision Img) (frame : Img) :
    detect_barcodeB env frame = detectSpec env (stagesAllB env frame) ∧
    detectAttemptsB env frame = attemptsSpec env (stagesAllB env frame) := by
  simp only [detect_barcodeB, detectAttemptsB, detectRunB, detectSpec, stagesAllB]
  cases hf12 : ((stage12B env frame (env.apply .cvtGray frame)).flatMap env.decode).find?
      (fun x => isGoodBC x) with
  | some bc =>
    obtain ⟨sn, hr⟩ := runStagesN_empty_some env _ bc hf12
    rw [hr]
    have hf123 : (((stage12B env frame (env.apply .cvtGray frame) ++
        stage3B env (env.apply .cvtGray frame))).flatMap env.decode).find?
        (fun x => isGoodBC x) = some bc := by
      rw [List.flatMap_append, List.find?_append, hf12]; rfl
    have hfull : (((stage12B env frame (env.apply .cvtGray frame) ++
        stage3B env (env.apply .cvtGray frame) ++
        stage4B env (env.apply .cvtGray frame))).flatMap env.decode).find?
        (fun x => isGoodBC x) = some bc := by
      rw [List.flatMap_append, List.find?_append, hf123]; rfl
    constructor
    · rw [hfull]
    · rw [attemptsSpec_append_found env _ _ bc hf123,
        attemptsSpec_append_found env _ _ bc hf12]
  | none =>
    have hn12 := (flatMap_find?_none_iff env _).mp hf12
    rw [runStagesN_empty_none env _ hn12]
    simp only [List.isEmpty_nil, if_true]
    cases hf3 : ((stage3B env (env.apply .cvtGray frame)).flatMap env.decode).find?
        (fun x => isGoodBC x) with
    | some bc =>
      obtain ⟨sn, hr3⟩ := runStagesN_empty_some env _ bc hf3
      rw [hr3]
      have hf123 : (((stage12B env frame (env.apply .cvtGray frame) ++
          stage3B env (env.apply .cvtGray frame))).flatMap env.decode).find?
          (fun x => isGoodBC x) = some bc := by
        rw [List.flatMap_append, List.find?_append, hf12, hf3]; rfl
      have hfull : (((stage12B env frame (env.apply .cvtGray frame) ++
          stage3B env (env.apply .cvtGray frame) ++
          stage4B env (env.apply .cvtGray frame))).flatMap env.decode).find?
          (fun x => isGoodBC x) = some bc := by
        rw [List.flatMap_append, List.find?_append, hf123]; rfl
      constructor
      · rw [hfull]
      · rw [attemptsSpec_append_found env _ _ bc hf123,
          attemptsSpec_append_none env _ _ hn12]
    | none =>
      have hn3 := (flatMap_find?_none_iff env _).mp hf3
      rw [runStagesN_empty_none env _ hn3]
      simp only [List.isEmpty_nil, if_true]
      have hn123 : ∀ img ∈ stage12B env frame (env.apply .cvtGray frame) ++
          stage3B env (env.apply .cvtGray frame), ∀ bc ∈ env.decode img,
          isGoodBC bc = false := by
        intro img him bc hbc
        rcases List.mem_append.mp him with h12 | h3
        · exact hn12 img h12 bc hbc
        · exact hn3 img h3 bc hbc
      cases hf4 : ((stage4B env (env.apply .cvtGray frame)).flatMap env.decode).find?
          (fun x => isGoodBC x) with
      | some bc =>
        obtain ⟨sn, hr4⟩ := runStagesN_empty_some env _ bc hf4
        rw [hr4]
        have hfull : (((stage12B env frame (env.apply .cvtGray frame) ++
            stage3B env (env.apply .cvtGray frame) ++
            stage4B env (env.apply .cvtGray frame))).flatMap env.decode).find?
            (fun x => isGoodBC x) = some bc := by
          rw [List.flatMap_append, List.find?_append,
            (flatMap_find?_none_iff env _).mpr hn123, hf4]; rfl
        constructor
        · rw [hfull]
        · rw [attemptsSpec_append_none env _ _ hn123, List.length_append]
      | none =>
        have hn4 := (flatMap_find?_none_iff env _).mp hf4
        rw [runStagesN_empty_none env _ hn4]
        have hfull : (((stage12B env frame (env.apply .cvtGray frame) ++
            stage3B env (env.apply .cvtGray frame) ++
            stage4B env (env.apply .cvtGray frame))).flatMap env.decode).find?
            (fun x => isGoodBC x) = none := by
          rw [List.flatMap_append, List.find?_append,
            (flatMap_find?_none_iff env _).mpr hn123, hf4]; rfl
        constructor
        · rw [hfull]
        · rw [attemptsSpec_append_none env _ _ hn123,
            attemptsSpec_all_none env _ hn4, List.length_append]

/-! ### Further helper lemmas -/

theorem attemptsSpec_le_length {Img : Type} (env : Vision Img) (xs : List Img) :
    attemptsSpec env xs ≤ xs.length := by
  induction xs with
  | nil => simp [attemptsSpec]
  | cons img rest ih =>
    rw [attemptsSpec_cons]
    by_cases h : ((env.decode img).any fun x => isGoodBC x) = true
    · simp [h]
    · rw [if_neg h]
      simp only [List.length_cons]
      omega

theorem attemptsSpec_pos {Img : Type} (env : Vision Img) (img : Img) (rest : List Img) :
    1 ≤ attemptsSpec env (img :: rest) := by
  rw [attemptsSpec_cons]
  by_cases h : ((env.decode img).any fun x => isGoodBC x) = true
  · simp [h]
  · rw [if_neg h]
    omega

theorem one_lt_attemptsSpec_cons {Img : Type} (env : Vision Img) (img img2 : Img)
    (rest : List Img) :
    1 < attemptsSpec env (img :: img2 :: rest) ↔
      ((env.decode img).any fun x => isGoodBC x) = false := by
  rw [attemptsSpec_cons]
  by_cases h : ((env.decode img).any fun x => isGoodBC x) = true
  · simp [h]
  · rw [if_neg h]
    have hpos := attemptsSpec_pos env img2 rest
    simp only [Bool.not_eq_true] at h
    simp [h]
    omega

theorem detectSpec_length_le_one {Img : Type} (env : Vision Img) (stages : List Img) :
    (detectSpec env stages).length ≤ 1 := by
  unfold detectSpec
  cases (stages.flatMap env.decode).find? (fun bc => isGoodBC bc) <;> simp

theorem detectSpec_good {Img : Type} (env : Vision Img) (stages : List Img)
    (bc : BC) (h : bc ∈ detectSpec env stages) : isGoodBC bc = true := by
  unfold detectSpec at h
  cases hf : (stages.flatMap env.decode).find? (fun x => isGoodBC x) with
  | none => rw [hf] at h; simp at h
  | some b =>
    rw [hf] at h
    obtain rfl : bc = b := by simpa using h
    exact List.find?_some hf

theorem runDetectCalls_spec {Img : Type} (d : Img → List BC) (frames : List Img)
    (s : VState) : runDetectCalls d frames s = (frames.map d, s) := by
  induction frames with
  | nil => rfl
  | cons f fs ih => simp [runDetectCalls, ih]

theorem pyTruthy_true_ne_none (o : Option String) (h : pyTruthy o = true) :
    o ≠ none := by
  cases o with
  | none => simp [pyTruthy] at h
  | some s => simp

theorem ModeInv_handle_start (s : MState) (h : ModeInv s) :
    ModeInv (handle_start s) := by
  unfold handle_start
  by_cases ht : pyTruthy s.reference_barcode = false
  · simpa [ht] using h
  · have htt : pyTruthy s.reference_barcode = true := by
      cases hb : pyTruthy s.reference_barcode
      · exact absurd hb ht
      · rfl
    rw [if_neg ht]
    intro _
    exact pyTruthy_true_ne_none _ htt

theorem ModeInv_do_capture (bcs : List BC) (s : MState) (h : ModeInv s) :
    ModeInv (do_capture bcs s) := by
  cases bcs with
  | nil => simpa [do_capture] using h
  | cons bc rest =>
    cases hd : bc.data with
    | none => simpa [do_capture, hd] using h
    | some d =>
      intro _
      simp [do_capture, hd]

theorem ModeInv_do_reset (s : MState) : ModeInv (do_reset s) := by
  unfold do_reset ModeInv
  simp

theorem ModeInv_capture_requested (s : MState) (b : Bool) (h : ModeInv s) :
    ModeInv { s with capture_requested := b } := h

theorem ModeInv_loopTick (bcs : List BC) (s : MState) (h : ModeInv s) :
    ModeInv (if s.capture_requested
             then { do_capture bcs s with capture_requested := false }
             else s) := by
  by_cases hc : s.capture_requested
  · rw [if_pos hc]
    have h2 := ModeInv_do_capture bcs s h
    unfold ModeInv at *
    simpa using h2
  · rwa [if_neg hc]

theorem pm_do_capture (bcs : List BC) (s : MState) :
    (do_capture bcs s).production_mode = s.production_mode := by
  cases bcs with
  | nil => rfl
  | cons bc rest => cases hd : bc.data <;> simp [do_capture, hd]

theorem pm_do_reset (s : MState) : (do_reset s).production_mode = false := rfl

theorem pm_handle_start (s : MState) :
    (handle_start s).production_mode = s.production_mode ∨
      (pyTruthy s.reference_barcode = true ∧
        (handle_start s).production_mode = !s.production_mode) := by
  unfold handle_start
  by_cases ht : pyTruthy s.reference_barcode = false
  · left; rw [if_pos ht]
  · right
    refine ⟨?_, by rw [if_neg ht]⟩
    cases hb : pyTruthy s.reference_barcode
    · exact absurd hb ht
    · rfl

theorem pm_loopTick (bcs : List BC) (s : MState) :
    (if s.capture_requested
     then { do_capture bcs s with capture_requested := false }
     else s).production_mode = s.production_mode := by
  by_cases hc : s.capture_requested
  · rw [if_pos hc]
    exact pm_do_capture bcs s
  · rw [if_neg hc]

theorem runBuzzScript_state (script : List BuzzAct) (buzzer : Bool) (s : MState) :
    (runBuzzScript script buzzer s).2 = s := by
  induction script generalizing buzzer with
  | nil => rfl
  | cons a rest ih => cases a <;> simpa [runBuzzScript] using ih _

/-! ### The claims -/

/-- C1: for every input frame, `detect_barcode` in the BARCODE and
HARDWARE_ENHANCED variants behaves as a prioritized list of filters applied
until one succeeds: its result is the singleton of the first barcode, in
the fixed stage order (original colour, grayscale, histogram-equalized, then
the thresholding / CLAHE / sharpening / rescaling / morphology transforms),
whose data decodes to a non-empty UTF-8 string, and the number of decode
attempts stops exactly at the first succeeding stage, so no further
transforms are attempted after a success. -/
theorem claim_C1_detect_prioritized {Img : Type} (env : Vision Img) (frame : Img) :
    (detect_barcodeB env frame = detectSpec env (stagesAllB env frame) ∧
     detectAttemptsB env frame = attemptsSpec env (stagesAllB env frame)) ∧
    (detect_barcodeH env frame = detectSpec env (stagesAllH env frame) ∧
     detectAttemptsH env frame = attemptsSpec env (stagesAllH env frame)) :=
  ⟨detectB_characterization env frame, detectH_characterization env frame⟩

/-- C7: for every input frame, `detect_barcode` in the BARCODE and
HARDWARE_ENHANCED variants returns a list of length at most one, and any
barcode it returns has data that decodes to a non-empty UTF-8 string. -/
theorem claim_C7_detect_singleton {Img : Type} (env : Vision Img) (frame : Img) :
    (detect_barcodeB env frame).length ≤ 1 ∧
    (∀ bc ∈ detect_barcodeB env frame, isGoodBC bc = true) ∧
    (detect_barcodeH env frame).length ≤ 1 ∧
    (∀ bc ∈ detect_barcodeH env frame, isGoodBC bc = true) := by
  have hB := (detectB_characterization env frame).1
  have hH := (detectH_characterization env frame).1
  refine ⟨?_, ?_, ?_, ?_⟩
  · rw [hB]; exact detectSpec_length_le_one env _
  · intro bc hbc; rw [hB] at hbc; exact detectSpec_good env _ bc hbc
  · rw [hH]; exact detectSpec_length_le_one env _
  · intro bc hbc; rw [hH] at hbc; exact detectSpec_good env _ bc hbc

/-- Witness for C7 at a concrete library: the original frame of `envHit`
decodes to `bcA`, the pipeline returns at most one barcode, and `bcA` (a
member of the result) has good data. -/
theorem claim_C7_witness :
    (detect_barcodeB envHit 0).length ≤ 1 ∧ isGoodBC bcA = true :=
  ⟨(claim_C7_detect_singleton envHit 0).1,
   (claim_C7_detect_singleton envHit 0).2.1 bcA (by decide)⟩

/-- C2 as frozen says the pipeline "applies at most a dozen image-processing
transforms and makes more than one decode attempt per frame".  Both halves
fail: `preprocess_for_barcode` of the BARCODE variant produces 48 candidate
images (47 of them outputs of transform applications, far more than a
dozen), and when the very first decode attempt (on the original colour
frame) succeeds, `detect_barcode` makes exactly one decode attempt. -/
theorem claim_C2_counterexample :
    (preprocess_for_barcodeB envZero 0).length = 48 ∧
    ¬((preprocess_for_barcodeB envZero 0).length - 1 ≤ 12) ∧
    detectAttemptsB envHit 0 = 1 := by
  refine ⟨by decide, by decide, by decide⟩

/-- C2 amended: the BARCODE `preprocess_for_barcode` produces 48 candidate
images (the HARDWARE_ENHANCED one 5), and `detect_barcode` makes between 1
and 15 (respectively 6) decode attempts per frame — more than one exactly
when the first attempt, on the original colour frame, finds no good
barcode. -/
theorem claim_C2_amended {Img : Type} (env : Vision Img) (frame : Img) :
    (preprocess_for_barcodeB env frame).length = 48 ∧
    (preprocess_for_barcodeH env frame).length = 5 ∧
    1 ≤ detectAttemptsB env frame ∧ detectAttemptsB env frame ≤ 15 ∧
    1 ≤ detectAttemptsH env frame ∧ detectAttemptsH env frame ≤ 6 ∧
    (1 < detectAttemptsB env frame ↔
      ((env.decode frame).any fun bc => isGoodBC bc) = false) ∧
    (1 < detectAttemptsH env frame ↔
      ((env.decode frame).any fun bc => isGoodBC bc) = false) := by
  have hB := (detectB_characterization env frame).2
  have hH := (detectH_characterization env frame).2
  have hshapeB : stagesAllB env frame = frame :: env.apply .cvtGray frame ::
      ([env.apply .equalizeHist (env.apply .cvtGray frame),
        env.apply .otsu (env.apply .cvtGray frame),
        env.apply (.adaptiveThresh 11 2) (env.apply .cvtGray frame),
        env.apply (.clahe 30) (env.apply .cvtGray frame),
        env.apply (.sharpen 0) (env.apply .cvtGray frame)] ++
       stage3B env (env.apply .cvtGray frame) ++
       stage4B env (env.apply .cvtGray frame)) := rfl
  have hshapeH : stagesAllH env frame = frame :: env.apply .cvtGray frame ::
      [env.apply .equalizeHist (env.apply .cvtGray frame),
       env.apply .otsu (env.apply .cvtGray frame),
       env.apply (.adaptiveThresh 11 2) (env.apply .cvtGray frame),
       env.apply (.clahe 30) (env.apply .cvtGray frame)] := rfl
  refine ⟨rfl, rfl, ?_, ?_, ?_, ?_, ?_, ?_⟩
  · rw [hB, hshapeB]; exact attemptsSpec_pos env _ _
  · rw [hB]
    have hle := attemptsSpec_le_length env (stagesAllB env frame)
    have hlen : (stagesAllB env frame).length = 15 := rfl
    omega
  · rw [hH, hshapeH]; exact attemptsSpec_pos env _ _
  · rw [hH]
    have hle := attemptsSpec_le_length env (stagesAllH env frame)
    have hlen : (stagesAllH env frame).length = 6 := rfl
    omega
  · rw [hB, hshapeB]; exact one_lt_attemptsSpec_cons env _ _ _
  · rw [hH, hshapeH]; exact one_lt_attemptsSpec_cons env _ _ _

/-- C3 as frozen says every non-throttled call with a reference set
increments `total_scans` and exactly one outcome counter and returns one of
the three results.  This fails when the first detected barcode's data is not
valid UTF-8 (e.g. the bytes `b"\xff"` in a QR code): `verify_product`
increments `total_scans`, then `barcode.data.decode("utf-8")` raises and the
call returns nothing and increments no outcome counter, breaking the counter
identity. -/
theorem claim_C3_counterexample :
    verify_product detBad 10 0 sA = .error sAErr ∧
    sAErr.total_scans = sA.total_scans + 1 ∧
    sAErr.passed = sA.passed ∧ sAErr.mismatched = sA.mismatched ∧
    sAErr.no_barcode = sA.no_barcode ∧
    sAErr.total_scans ≠ sAErr.passed + sAErr.mismatched + sAErr.no_barcode := by
  have hth : ¬((10 : ℚ) - sA.last_scan_time < scanInterval) := by
    norm_num [sA, scanInterval]
  refine ⟨?_, by decide, by decide, by decide, by decide, by decide⟩
  rw [verify_product, if_neg (by decide), if_neg hth]
  rfl

/-- C3 amended: on every call to `verify_product`, if the reference is unset
(falsy) or less than `scan_interval` has elapsed, the call returns `None`
with the state untouched; otherwise, provided the first detected barcode's
data decodes as UTF-8, `total_scans` and exactly one of the outcome counters
grow by one, one log row is written, and the result is PASS / MISMATCH /
NO_BARCODE exactly as the first detected barcode compares to the reference;
when the first barcode's data does not decode, the call raises after
incrementing only `total_scans`. -/
theorem claim_C3_verify_product_amended {Img : Type} (detect : Img → List BC)
    (now : ℚ) (frame : Img) (s : VState) :
    (pyTruthy s.reference_barcode = false →
      verify_product detect now frame s = .ok (none, s)) ∧
    (now - s.last_scan_time < scanInterval →
      verify_product detect now frame s = .ok (none, s)) ∧
    (pyTruthy s.reference_barcode = true →
      ¬(now - s.last_scan_time < scanInterval) →
      ∀ r s', verify_product detect now frame s = .ok (r, s') →
        s'.total_scans = s.total_scans + 1 ∧
        s'.passed + s'.mismatched + s'.no_barcode
          = s.passed + s.mismatched + s.no_barcode + 1 ∧
        s'.log.length = s.log.length + 1 ∧
        (r = some "PASS" ↔
          ∃ bc, (detect frame).head? = some bc ∧ bc.data = s.reference_barcode) ∧
        (r = some "NO_BARCODE" ↔ (detect frame).head? = none) ∧
        (r = some "MISMATCH" ↔ ∃ bc d, (detect frame).head? = some bc ∧
          bc.data = some d ∧ s.reference_barcode ≠ some d) ∧
        (s'.passed = s.passed + 1 ↔ r = some "PASS") ∧
        (s'.mismatched = s.mismatched + 1 ↔ r = some "MISMATCH") ∧
        (s'.no_barcode = s.no_barcode + 1 ↔ r = some "NO_BARCODE")) ∧
    (∀ s', verify_product detect now frame s = .error s' →
      s'.total_scans = s.total_scans + 1 ∧ s'.passed = s.passed ∧
      s'.mismatched = s.mismatched ∧ s'.no_barcode = s.no_barcode ∧
      s'.log = s.log ∧
      ∃ bc rest, detect frame = bc :: rest ∧ bc.data = none) := by
  refine ⟨?_, ?_, ?_, ?_⟩
  · intro h
    simp [verify_product, h]
  · intro h
    by_cases href : pyTruthy s.reference_barcode = false
    · simp [verify_product, href]
    · simp [verify_product, href, h]
  · intro htr hth r s' heq
    have hni : ¬(pyTruthy s.reference_barcode = false) := by simp [htr]
    cases hd : detect frame with
    | nil =>
      have hv : verify_product detect now frame s =
          .ok (some "NO_BARCODE",
            log_result
              { s with
                  last_scan_time := now
                  total_scans := s.total_scans + 1
                  no_barcode := s.no_barcode + 1 } "NO_BARCODE" "" "") := by
        rw [verify_product, if_neg hni, if_neg hth]
        simp [hd]
      rw [hv] at heq
      simp only [Except.ok.injEq, Prod.mk.injEq] at heq
      obtain ⟨rfl, rfl⟩ := heq
      refine ⟨by simp [log_result], by simp [log_result] <;> omega,
        by simp [log_result], ?_, ?_, ?_, ?_, ?_, ?_⟩
      · constructor
        · intro h'
          exact absurd h' (by decide)
        · rintro ⟨bc, hbc, _⟩
          rw [List.head?_nil] at hbc
          exact absurd hbc (by simp)
      · constructor
        · intro _
          exact List.head?_nil
        · intro _
          trivial
      · constructor
        · intro h'
          exact absurd h' (by decide)
        · rintro ⟨bc, d, hbc, _, _⟩
          rw [List.head?_nil] at hbc
          exact absurd hbc (by simp)
      · constructor
        · intro h'
          simp [log_result] at h'
        · intro h'
          exact absurd h' (by decide)
      · constructor
        · intro h'
          simp [log_result] at h'
        · intro h'
          exact absurd h' (by decide)
      · constructor
        · intro _
          trivial
        · intro _
          simp [log_result]
    | cons bc rest =>
      cases hdata : bc.data with
      | none =>
        have hv : verify_product detect now frame s =
            .error
              { s with
                  last_scan_time := now
                  total_scans := s.total_scans + 1 } := by
          rw [verify_product, if_neg hni, if_neg hth]
          simp [hd, hdata]
        rw [hv] at heq
        simp at heq
      | some d =>
        by_cases href2 : s.reference_barcode = some d
        · have hv : verify_product detect now frame s =
              .ok (some "PASS",
                log_result
                  { s with
                      last_scan_time := now
                      total_scans := s.total_scans + 1
                      passed := s.passed + 1 } "PASS" d bc.typ) := by
            rw [verify_product, if_neg hni, if_neg hth]
            simp [hd, hdata, href2]
          rw [hv] at heq
          simp only [Except.ok.injEq, Prod.mk.injEq] at heq
          obtain ⟨rfl, rfl⟩ := heq
          refine ⟨by simp [log_result], by simp [log_result] <;> omega,
            by simp [log_result], ?_, ?_, ?_, ?_, ?_, ?_⟩
          · constructor
            · intro _
              refine ⟨bc, List.head?_cons, ?_⟩
              rw [hdata, href2]
            · intro _
              trivial
          · constructor
            · intro h'
              exact absurd h' (by decide)
            · intro h'
              rw [List.head?_cons] at h'
              exact absurd h' (by simp)
          · constructor
            · intro h'
              exact absurd h' (by decide)
            · rintro ⟨bc2, d2, hbc2, hd2, hne⟩
              rw [List.head?_cons] at hbc2
              obtain rfl : bc = bc2 := by simpa using hbc2
              rw [hdata] at hd2
              obtain rfl : d = d2 := by simpa using hd2
              exact absurd href2 hne
          · constructor
            · intro _
              trivial
            · intro _
              simp [log_result]
          · constructor
            · intro h'
              simp [log_result] at h'
            · intro h'
              exact absurd h' (by decide)
          · constructor
            · intro h'
              simp [log_result] at h'
            · intro h'
              exact absurd h' (by decide)
        · have hv : verify_product detect now frame s =
              .ok (some "MISMATCH",
                log_result
                  { s with
                      last_scan_time := now
                      total_scans := s.total_scans + 1
                      mismatched := s.mismatched + 1 } "MISMATCH" d bc.typ) := by
            rw [verify_product, if_neg hni, if_neg hth]
            simp [hd, hdata, href2]
          rw [hv] at heq
          simp only [Except.ok.injEq, Prod.mk.injEq] at heq
          obtain ⟨rfl, rfl⟩ := heq
          refine ⟨by simp [log_result], by simp [log_result] <;> omega,
            by simp [log_result], ?_, ?_, ?_, ?_, ?_, ?_⟩
          · constructor
            · intro h'
              exact absurd h' (by decide)
            · rintro ⟨bc2, hbc2, hd2⟩
              rw [List.head?_cons] at hbc2
              obtain rfl : bc = bc2 := by simpa using hbc2
              rw [hdata] at hd2
              exact absurd hd2.symm href2
          · constructor
            · intro h'
              exact absurd h' (by decide)
            · intro h'
              rw [List.head?_cons] at h'
              exact absurd h' (by simp)
          · constructor
            · intro _
              exact ⟨bc, d, List.head?_cons, hdata, href2⟩
            · intro _
              trivial
          · constructor
            · intro h'
              simp [log_result] at h'
            · intro h'
              exact absurd h' (by decide)
          · constructor
            · intro _
              trivial
            · intro _
              simp [log_result]
          · constructor
            · intro h'
              simp [log_result] at h'
            · intro h'
              exact absurd h' (by decide)
  · intro s' heq
    by_cases href : pyTruthy s.reference_barcode = false
    · rw [verify_product, if_pos href] at heq
      simp at heq
    · by_cases hth : now - s.last_scan_time < scanInterval
      · rw [verify_product, if_neg href, if_pos hth] at heq
        simp at heq
      · cases hd : detect frame with
        | nil =>
          have hv : verify_product detect now frame s =
              .ok (some "NO_BARCODE",
                log_result
                  { s with
                      last_scan_time := now
                      total_scans := s.total_scans + 1
                      no_barcode := s.no_barcode + 1 } "NO_BARCODE" "" "") := by
            rw [verify_product, if_neg href, if_neg hth]
            simp [hd]
          rw [hv] at heq
          simp at heq
        | cons bc rest =>
          cases hdata : bc.data with
          | none =>
            have hv : verify_product detect now frame s =
                .error
                  { s with
                      last_scan_time := now
                      total_scans := s.total_scans + 1 } := by
              rw [verify_product, if_neg href, if_neg hth]
              simp [hd, hdata]
            rw [hv] at heq
            simp only [Except.error.injEq] at heq
            subst heq
            exact ⟨rfl, rfl, rfl, rfl, rfl, bc, rest, rfl, hdata⟩
          | some d =>
            by_cases href2 : s.reference_barcode = some d
            · have hv : verify_product detect now frame s =
                  .ok (some "PASS",
                    log_result
                      { s with
                          last_scan_time := now
                          total_scans := s.total_scans + 1
                          passed := s.passed + 1 } "PASS" d bc.typ) := by
                rw [verify_product, if_neg href, if_neg hth]
                simp [hd, hdata, href2]
              rw [hv] at heq
              simp at heq
            · have hv : verify_product detect now frame s =
                  .ok (some "MISMATCH",
                    log_result
                      { s with
                          last_scan_time := now
                          total_scans := s.total_scans + 1
                          mismatched := s.mismatched + 1 } "MISMATCH" d bc.typ) := by
                rw [verify_product, if_neg href, if_neg hth]
                simp [hd, hdata, href2]
              rw [hv] at heq
              simp at heq

/-- Witness for amended C3: a non-throttled PASS scan at time 10 against
reference "A" bumps `total_scans` and `passed`. -/
theorem claim_C3_witness :
    verify_product detOne 10 0 sA = .ok (some "PASS", sAPass) ∧
    sAPass.total_scans = sA.total_scans + 1 ∧
    sAPass.passed = sA.passed + 1 := by
  have heq : verify_product detOne 10 0 sA = .ok (some "PASS", sAPass) := by
    rw [verify_product, if_neg (by decide),
      if_neg (by norm_num [sA, scanInterval])]
    rfl
  have h := (claim_C3_verify_product_amended detOne 10 0 sA).2.2.1 (by decide)
    (by norm_num [sA, scanInterval]) (some "PASS") sAPass heq
  exact ⟨heq, h.1, h.2.2.2.2.2.2.1.mpr rfl⟩

/-- C4: in every verifier variant the invariant "production mode implies a
reference barcode is set" holds initially and is preserved by every
operation; the start/stop handler refuses while the reference is falsy,
`capture_reference` only ever sets the reference to a `some` value, and the
reset command clears the reference and production mode in the same step. -/
theorem claim_C4_mode_invariant :
    ModeInv initMState ∧
    (∀ op s, ModeInv s → ModeInv (base_step op s)) ∧
    (∀ op s, ModeInv s → ModeInv (enh_step op s)) ∧
    (∀ op s, ModeInv s → ModeInv (hw_step op s)) ∧
    (∀ op s, ModeInv s → ModeInv (hwe_step op s)) ∧
    (∀ s, s.reference_barcode = none → handle_start s = s) ∧
    (∀ bcs s, (do_capture bcs s).reference_barcode = s.reference_barcode ∨
      ∃ d, (do_capture bcs s).reference_barcode = some d) ∧
    (∀ s, (do_reset s).reference_barcode = none ∧
      (do_reset s).production_mode = false) := by
  refine ⟨?_, ?_, ?_, ?_, ?_, ?_, ?_, ?_⟩
  · intro h
    simp [initMState] at h
  · intro op s hs
    cases op with
    | keyC bcs => exact ModeInv_do_capture bcs s hs
    | keyS => exact ModeInv_handle_start s hs
    | keyR => exact ModeInv_do_reset _
    | keyL => exact hs
    | keyH => exact hs
    | keyOther => exact hs
    | frameTick => exact hs
  · intro op s hs
    cases op with
    | btnStart => exact ModeInv_handle_start s hs
    | btnCapture => exact ModeInv_capture_requested s true hs
    | keyQ => exact hs
    | keyH => exact hs
    | keyC => exact ModeInv_capture_requested s true hs
    | keyS => exact ModeInv_handle_start s hs
    | loopTick bcs => exact ModeInv_loopTick bcs s hs
  · intro op s hs
    cases op with
    | btnStart => exact ModeInv_handle_start s hs
    | btnCapture => exact hs
    | keyQ => exact hs
    | keyH => exact hs
    | keyC => exact ModeInv_capture_requested s true hs
    | keyS => exact ModeInv_handle_start s hs
    | loopTick bcs => exact ModeInv_loopTick bcs s hs
  · intro op s hs
    cases op with
    | btnStart => exact ModeInv_handle_start s hs
    | btnCapture => exact ModeInv_capture_requested s true hs
    | keyQ => exact hs
    | keyH => exact hs
    | keyL => exact hs
    | keyC bcs => exact ModeInv_do_capture bcs s hs
    | keyS => exact ModeInv_handle_start s hs
    | keyR => exact ModeInv_do_reset _
    | loopTick bcs => exact ModeInv_loopTick bcs s hs
  · intro s h
    simp [handle_start, h, pyTruthy]
  · intro bcs s
    cases bcs with
    | nil => left; rfl
    | cons bc rest =>
      cases hd : bc.data with
      | none => left; simp [do_capture, hd]
      | some d => right; exact ⟨d, by simp [do_capture, hd]⟩
  · intro s
    exact ⟨rfl, rfl⟩

/-- Witness for C4: the invariant holds for a state in production mode with
reference "A" and is preserved by a start/stop key press. -/
theorem claim_C4_witness :
    ModeInv initMState ∧ ModeInv (base_step BaseOp.keyS mEx) :=
  ⟨claim_C4_mode_invariant.1,
   claim_C4_mode_invariant.2.1 BaseOp.keyS mEx (by intro _; decide)⟩

/-- C5 as frozen says the only persistent mode state governing the main loop
is the boolean `production_mode`.  In the HARDWARE_ENHANCED (and ENHANCED)
variant a second persistent boolean, `capture_requested`, also governs the
loop: two states agreeing on `production_mode` and the reference but
differing in `capture_requested` behave differently on the same frame. -/
theorem claim_C5_counterexample :
    mReqF.production_mode = mReqT.production_mode ∧
    mReqF.reference_barcode = mReqT.reference_barcode ∧
    mReqF.reference_type = mReqT.reference_type ∧
    (hwe_step (HweOp.loopTick [bcA]) mReqF).reference_barcode = none ∧
    (hwe_step (HweOp.loopTick [bcA]) mReqT).reference_barcode = some "A" := by
  exact ⟨rfl, rfl, rfl, by decide, by decide⟩

/-- C5 amended: in every variant, `production_mode` is a boolean that each
operation leaves unchanged, toggles (only with a truthy reference, via the
start/stop command), or sets to false (reset); but the ENHANCED, HARDWARE
and HARDWARE_ENHANCED variants keep a second persistent boolean,
`capture_requested`, which also governs the main loop by triggering a
reference capture on the next frame. -/
theorem claim_C5_production_mode_amended :
    (∀ op s, (base_step op s).production_mode = s.production_mode ∨
      (pyTruthy s.reference_barcode = true ∧
        (base_step op s).production_mode = !s.production_mode) ∨
      (base_step op s).production_mode = false) ∧
    (∀ op s, (enh_step op s).production_mode = s.production_mode ∨
      (pyTruthy s.reference_barcode = true ∧
        (enh_step op s).production_mode = !s.production_mode) ∨
      (enh_step op s).production_mode = false) ∧
    (∀ op s, (hw_step op s).production_mode = s.production_mode ∨
      (pyTruthy s.reference_barcode = true ∧
        (hw_step op s).production_mode = !s.production_mode) ∨
      (hw_step op s).production_mode = false) ∧
    (∀ op s, (hwe_step op s).production_mode = s.production_mode ∨
      (pyTruthy s.reference_barcode = true ∧
        (hwe_step op s).production_mode = !s.production_mode) ∨
      (hwe_step op s).production_mode = false) := by
  refine ⟨?_, ?_, ?_, ?_⟩
  · intro op s
    cases op with
    | keyC bcs => exact Or.inl (pm_do_capture bcs s)
    | keyS => rcases pm_handle_start s with h | h
              · exact Or.inl h
              · exact Or.inr (Or.inl h)
    | keyR => exact Or.inr (Or.inr (pm_do_reset s))
    | keyL => exact Or.inl rfl
    | keyH => exact Or.inl rfl
    | keyOther => exact Or.inl rfl
    | frameTick => exact Or.inl rfl
  · intro op s
    cases op with
    | btnStart => rcases pm_handle_start s with h | h
                  · exact Or.inl h
                  · exact Or.inr (Or.inl h)
    | btnCapture => exact Or.inl rfl
    | keyQ => exact Or.inl rfl
    | keyH => exact Or.inl rfl
    | keyC => exact Or.inl rfl
    | keyS => rcases pm_handle_start s with h | h
              · exact Or.inl h
              · exact Or.inr (Or.inl h)
    | loopTick bcs => exact Or.inl (pm_loopTick bcs s)
  · intro op s
    cases op with
    | btnStart => rcases pm_handle_start s with h | h
                  · exact Or.inl h
                  · exact Or.inr (Or.inl h)
    | btnCapture => exact Or.inl rfl
    | keyQ => exact Or.inl rfl
    | keyH => exact Or.inl rfl
    | keyC => exact Or.inl rfl
    | keyS => rcases pm_handle_start s with h | h
              · exact Or.inl h
              · exact Or.inr (Or.inl h)
    | loopTick bcs => exact Or.inl (pm_loopTick bcs s)
  · intro op s
    cases op with
    | btnStart => rcases pm_handle_start s with h | h
                  · exact Or.inl h
                  · exact Or.inr (Or.inl h)
    | btnCapture => exact Or.inl rfl
    | keyQ => exact Or.inl rfl
    | keyH => exact Or.inl rfl
    | keyL => exact Or.inl rfl
    | keyC bcs => exact Or.inl (pm_do_capture bcs s)
    | keyS => rcases pm_handle_start s with h | h
              · exact Or.inl h
              · exact Or.inr (Or.inl h)
    | keyR => exact Or.inr (Or.inr (pm_do_reset s))
    | loopTick bcs => exact Or.inl (pm_loopTick bcs s)

/-- C6 as frozen says no error leads to any retry or alternative mechanism.
Two of the cited handlers do exactly that: the ENHANCED main loop re-attempts
a failed camera read up to 10 more times before giving up (11 `cap.read()`
calls on a dead camera), and the `except` handler of the BARCODE `play_sound`
falls back to printing a console bell when the `speaker-test` call raises. -/
theorem claim_C6_counterexample :
    (camera_read_retry (List.replicate 11 (none : Option Nat)) 0).2 = 11 ∧
    play_soundB "success" true = [.speakerBeep 1000, .consoleBell] ∧
    SndEff.consoleBell ∈ play_soundB "success" true := by
  exact ⟨by decide, rfl, by decide⟩

/-- C6 amended: caught errors carry no typed taxonomy and no unbounded
recovery, but two bounded mechanisms exist: the main loop re-attempts a
failed camera read at most until the consecutive-failure counter passes 10
(never more reads than outcomes supplied), and the sound path never re-runs
the failed `speaker-test` call — a failing run makes at most one speaker
attempt and at most one console-bell fallback. -/
theorem claim_C6_error_handling_amended :
    (∀ (outcomes : List (Option Nat)) (fc : Nat), fc ≤ 10 →
      (camera_read_retry outcomes fc).2 ≤ 11 - fc ∧
      (camera_read_retry outcomes fc).2 ≤ outcomes.length) ∧
    (∀ t, ((play_soundB t true).filter isSpeaker).length ≤ 1 ∧
      ((play_soundB t true).filter fun e => e = SndEff.consoleBell).length ≤ 1) := by
  constructor
  · intro outcomes
    induction outcomes with
    | nil =>
      intro fc _
      exact ⟨by simp [camera_read_retry], by simp [camera_read_retry]⟩
    | cons o rest ih =>
      intro fc hfc
      cases o with
      | some f =>
        refine ⟨?_, ?_⟩
        · simp only [camera_read_retry]
          omega
        · simp only [camera_read_retry, List.length_cons]
          omega
      | none =>
        by_cases hg : fc + 1 > 10
        · refine ⟨?_, ?_⟩
          · simp only [camera_read_retry, if_pos hg]
            omega
          · simp only [camera_read_retry, if_pos hg, List.length_cons]
            omega
        · have hr := ih (fc + 1) (by omega)
          refine ⟨?_, ?_⟩
          · simp only [camera_read_retry, if_neg hg]
            omega
          · simp only [camera_read_retry, if_neg hg, List.length_cons]
            omega
  · intro t
    unfold play_soundB
    split <;> exact ⟨by decide, by decide⟩

/-- Witness for amended C6: a working first read stays within the retry
bound, and a failing mismatch sound makes at most one speaker attempt. -/
theorem claim_C6_witness :
    (camera_read_retry ([some 5] : List (Option Nat)) 0).2 ≤ 11 ∧
    ((play_soundB "mismatch" true).filter isSpeaker).length ≤ 1 := by
  refine ⟨?_, (claim_C6_error_handling_amended.2 "mismatch").1⟩
  have h := (claim_C6_error_handling_amended.1 [some 5] 0 (by decide)).1
  simpa using h

/-- C8: `detect_barcode` (base, BARCODE and HARDWARE_ENHANCED) is a pure
function of its frame: a sequence of calls on a verifier object leaves the
state exactly as it was, each call's result is a function of its frame
alone, and two calls on equal frames return equal results regardless of
position in the sequence. -/
theorem claim_C8_detect_pure {Img : Type} (env : Vision Img) (frames : List Img)
    (s : VState) :
    runDetectCalls (detect_barcodeB env) frames s
      = (frames.map (detect_barcodeB env), s) ∧
    runDetectCalls (detect_base env) frames s
      = (frames.map (detect_base env), s) ∧
    runDetectCalls (detect_barcodeH env) frames s
      = (frames.map (detect_barcodeH env), s) ∧
    (∀ (i j : Nat) (f : Img), frames[i]? = some f → frames[j]? = some f →
      (runDetectCalls (detect_barcodeB env) frames s).1[i]? =
        (runDetectCalls (detect_barcodeB env) frames s).1[j]?) := by
  refine ⟨runDetectCalls_spec _ _ _, runDetectCalls_spec _ _ _,
    runDetectCalls_spec _ _ _, ?_⟩
  intro i j f hi hj
  rw [runDetectCalls_spec]
  simp only [List.getElem?_map, hi, hj]

/-- Witness for C8: the state is unchanged and the calls at positions 0 and 2
on equal frames agree. -/
theorem claim_C8_witness :
    (runDetectCalls (detect_barcodeB envHit) [0, 1, 0] sA).2 = sA ∧
    (runDetectCalls (detect_barcodeB envHit) [0, 1, 0] sA).1[0]? =
      (runDetectCalls (detect_barcodeB envHit) [0, 1, 0] sA).1[2]? := by
  constructor
  · rw [(claim_C8_detect_pure envHit [0, 1, 0] sA).1]
  · exact (claim_C8_detect_pure envHit [0, 1, 0] sA).2.2.2 0 2 0 rfl rfl

/-- C9 as frozen says the keys acted on by the base main loop are exactly the
documented set `c, s, q, r, l`.  The loop also handles `h` (it prints the
help screen), which the module docstring does not document. -/
theorem claim_C9_counterexample :
    keyAction 'h' ≠ KAct.ignore ∧ 'h' ∉ documented_keys := by
  exact ⟨by decide, by decide⟩

/-- C9 amended: the keys the base main loop acts on are exactly the
documented `c, s, q, r, l` plus the undocumented help key `h`; every
documented key is handled; and any key other than `c`, `s`, `r` leaves the
reference barcode and production mode unchanged for that iteration. -/
theorem claim_C9_keys_amended :
    (∀ k, keyAction k ≠ KAct.ignore ↔ (k ∈ documented_keys ∨ k = 'h')) ∧
    (∀ k, k ∈ documented_keys → keyAction k ≠ KAct.ignore) ∧
    (∀ bcs k s, k ≠ 'c' → k ≠ 's' → k ≠ 'r' →
      (base_key_step bcs k s).reference_barcode = s.reference_barcode ∧
      (base_key_step bcs k s).production_mode = s.production_mode) := by
  refine ⟨?_, ?_, ?_⟩
  · intro k
    by_cases h1 : k = 'q'
    · subst h1; decide
    by_cases h2 : k = 'c'
    · subst h2; decide
    by_cases h3 : k = 's'
    · subst h3; decide
    by_cases h4 : k = 'r'
    · subst h4; decide
    by_cases h5 : k = 'l'
    · subst h5; decide
    by_cases h6 : k = 'h'
    · subst h6; decide
    have hig : keyAction k = KAct.ignore := by
      unfold keyAction
      rw [if_neg h1, if_neg h2, if_neg h3, if_neg h4, if_neg h5, if_neg h6]
    rw [hig]
    constructor
    · intro hne
      exact absurd rfl hne
    · intro hmem
      rcases hmem with hm | hm
      · simp only [documented_keys, List.mem_cons, List.not_mem_nil,
          or_false] at hm
        rcases hm with rfl | rfl | rfl | rfl | rfl
        · exact absurd rfl h2
        · exact absurd rfl h3
        · exact absurd rfl h1
        · exact absurd rfl h4
        · exact absurd rfl h5
      · exact absurd hm h6
  · intro k hk
    simp only [documented_keys, List.mem_cons, List.not_mem_nil,
      or_false] at hk
    rcases hk with rfl | rfl | rfl | rfl | rfl
    · decide
    · decide
    · decide
    · decide
    · decide
  · intro bcs k s h1 h2 h3
    by_cases g1 : k = 'q'
    · subst g1; exact ⟨rfl, rfl⟩
    by_cases g5 : k = 'l'
    · subst g5; exact ⟨rfl, rfl⟩
    by_cases g6 : k = 'h'
    · subst g6; exact ⟨rfl, rfl⟩
    have hig : keyAction k = KAct.ignore := by
      unfold keyAction
      rw [if_neg g1, if_neg h1, if_neg h2, if_neg h3, if_neg g5, if_neg g6]
    unfold base_key_step
    rw [hig]
    exact ⟨rfl, rfl⟩

/-- Witness for amended C9: the documented key `l` is handled, and a stray
key press leaves the mode state alone. -/
theorem claim_C9_witness :
    keyAction 'l' ≠ KAct.ignore ∧
    (base_key_step [] 'x' mEx).production_mode = mEx.production_mode :=
  ⟨claim_C9_keys_amended.2.1 'l' (by decide),
   (claim_C9_keys_amended.2.2 [] 'x' mEx (by decide) (by decide) (by decide)).2⟩

/-- C10 as frozen says all concurrency consists of detached beep threads that
never mutate verifier state.  production_demo.py also spawns a daemon
production-simulation thread, which is not a beep thread and whose body
mutates the scan counters of the verifier object. -/
theorem claim_C10_counterexample :
    (start_production_simulation.all fun t => isBeep t) = false ∧
    (productionSimStep demoOn).scan_count = demoOn.scan_count + 1 ∧
    productionSimStep demoOn ≠ demoOn := by
  exact ⟨by decide, by decide, by decide⟩

/-- C10 amended: every thread spawned by `play_buzzer_tone` (ENHANCED) is a
daemon beep thread whose script is fully determined by `tone_type`; the
spawning call returns with the verifier state untouched, and running any
beep script only drives the buzzer line, never the verifier state.  The one
other thread in the repository is the daemon production-simulation thread of
production_demo.py, which does mutate the demo counters. -/
theorem claim_C10_concurrency_amended (hw : Bool) (tone : String) (s : MState) :
    (play_buzzer_toneEnh hw tone s).1 = s ∧
    (play_buzzer_toneEnh hw tone s).2 =
      (if hw then [SpawnedThread.beep true (buzzerActionsEnh tone)] else []) ∧
    (∀ t ∈ (play_buzzer_toneEnh hw tone s).2,
      t = SpawnedThread.beep true (buzzerActionsEnh tone)) ∧
    (∀ script b s0, (runBuzzScript script b s0).2 = s0) := by
  refine ⟨rfl, rfl, ?_, fun script b s0 => runBuzzScript_state script b s0⟩
  intro t ht
  cases hw with
  | false => simp [play_buzzer_toneEnh] at ht
  | true =>
    simp only [play_buzzer_toneEnh, if_pos, List.mem_singleton] at ht
    simpa using ht

/-- Witness for amended C10: spawning the "pass" beep leaves the state
untouched, the spawned thread is the daemon beep thread for "pass", and
running its script does not change the verifier state. -/
theorem claim_C10_witness :
    (play_buzzer_toneEnh true "pass" mEx).1 = mEx ∧
    SpawnedThread.beep true (buzzerActionsEnh "pass")
      = SpawnedThread.beep true (buzzerActionsEnh "pass") ∧
    (runBuzzScript (buzzerActionsEnh "pass") false mEx).2 = mEx :=
  ⟨(claim_C10_concurrency_amended true "pass" mEx).1,
   (claim_C10_concurrency_amended true "pass" mEx).2.2.1 _ (by decide),
   (claim_C10_concurrency_amended true "pass" mEx).2.2.2 _ false mEx⟩

end BarcodeVerifier
